import Mathlib

/-!
Shallow embedding of the runtime interaction and readiness subsystem of the
CC_Website_Mockup repository (src/main.js, with src/unnamed/part_000 an earlier
variant of the same file).  Numeric state is embedded over `ℚ`; the browser or
three.js collaborators (camera basis vectors, raycast results, DOM panel sizes,
audio-context resume outcomes) enter as explicit inputs of each tick or event
handler, exactly where main.js reads them.
-/

/-! ## Constants (src/main.js lines 228, 236-243) -/

/-- Constant `moveSpeed = 3.0` (main.js:236). -/
def moveSpeed : ℚ := 3

/-- Constant `scrollSensitivity = 0.01` (main.js:237). -/
def scrollSensitivity : ℚ := 1/100

/-- Constant `touchScrollSensitivity = 0.01` (main.js:238). -/
def touchScrollSensitivity : ℚ := 1/100

/-- Constant `scrollDamping = 0.75` (main.js:239). -/
def scrollDamping : ℚ := 3/4

/-- Clamping bound `minCameraX = -50` (main.js:242). -/
def minCameraX : ℚ := -50

/-- Clamping bound `maxCameraX = 50` (main.js:242). -/
def maxCameraX : ℚ := 50

/-- Clamping bound `minCameraZ = -1.75` (main.js:243). -/
def minCameraZ : ℚ := -7/4

/-- Clamping bound `maxCameraZ = 1.75` (main.js:243). -/
def maxCameraZ : ℚ := 7/4

/-- The literal `0.0001` threshold below which the scroll velocity snaps to
zero (main.js:695). -/
def scrollStopThreshold : ℚ := 1/10000

/-- Camera position restricted to the two free axes X/Z (Y is never written by
the navigation code). -/
structure Vec2 where
  x : ℚ
  z : ℚ
deriving DecidableEq

/-- The idiom `Math.max(lo, Math.min(hi, v))` used for every clamp in main.js
(lines 412-413, 689-690, 710-711). -/
def clampAxis (lo hi v : ℚ) : ℚ := max lo (min hi v)

/-- Everything the camera-movement part of `animate` (main.js:671-721) reads on
one frame besides the evolving pose and velocity: the frame delta, the camera
basis vectors recomputed that frame (main.js:673-676; arbitrary here since the
orientation is owned by the imported scene), the four WASD key flags and the
`isTouching` flag. -/
structure TickInput where
  delta : ℚ
  forward : Vec2
  right : Vec2
  keyW : Bool
  keyA : Bool
  keyS : Bool
  keyD : Bool
  isTouching : Bool
deriving DecidableEq

/-- The per-axis clamp applied to a whole pose, the pair of clamps at
main.js:412-413, 689-690 and 710-711. -/
def clampPose (q : Vec2) : Vec2 :=
  Vec2.mk (clampAxis minCameraX maxCameraX q.x) (clampAxis minCameraZ maxCameraZ q.z)

/-- The `potentialPositionWASD` accumulation of main.js:680-685: each active
flag adds `±moveSpeed·delta` along `forward` or `right`. -/
def wasdTarget (i : TickInput) (p : Vec2) : Vec2 :=
  let d := moveSpeed * i.delta
  let q1 := if i.keyW then Vec2.mk (p.x + i.forward.x * d) (p.z + i.forward.z * d) else p
  let q2 := if i.keyS then Vec2.mk (q1.x - i.forward.x * d) (q1.z - i.forward.z * d) else q1
  let q3 := if i.keyA then Vec2.mk (q2.x - i.right.x * d) (q2.z - i.right.z * d) else q2
  if i.keyD then Vec2.mk (q3.x + i.right.x * d) (q3.z + i.right.z * d) else q3

/-- WASD movement with clamping (main.js:678-692): if any flag was active the
accumulated target is clamped per axis and becomes the new pose. -/
def wasdMove (i : TickInput) (p : Vec2) : Vec2 :=
  if i.keyW || i.keyS || i.keyA || i.keyD then clampPose (wasdTarget i p) else p

/-- The candidate position `position + right * (scrollVelocityX * delta)`
computed by the scroll branch of `animate` (main.js:696-698). -/
def scrollPotential (i : TickInput) (p : Vec2) (v : ℚ) : Vec2 :=
  Vec2.mk (p.x + i.right.x * (v * i.delta)) (p.z + i.right.z * (v * i.delta))

/-- The strict-inequality bounds test of main.js:701-702. -/
def strictlyInsideBounds (q : Vec2) : Prop :=
  minCameraX < q.x ∧ q.x < maxCameraX ∧ minCameraZ < q.z ∧ q.z < maxCameraZ

instance (q : Vec2) : Decidable (strictlyInsideBounds q) := by
  unfold strictlyInsideBounds; infer_instance

/-- Scroll/touch velocity movement (main.js:694-716): above the stop threshold
the candidate step is applied when strictly in bounds (with damping unless a
touch drag is active), otherwise the pose is clamped and the velocity zeroed;
at or below the threshold the velocity snaps to zero. -/
def scrollMove (i : TickInput) (p : Vec2) (v : ℚ) : Vec2 × ℚ :=
  if scrollStopThreshold < |v| then
    if strictlyInsideBounds (scrollPotential i p v) then
      (scrollPotential i p v, if i.isTouching then v else v * scrollDamping)
    else
      (clampPose (scrollPotential i p v), 0)
  else (p, 0)

/-- One navigation tick of `animate` (main.js:671-721): WASD movement first,
then the velocity-based movement. -/
def navTick (i : TickInput) (p : Vec2) (v : ℚ) : Vec2 × ℚ :=
  scrollMove i (wasdMove i p) v

/-- A sequence of navigation ticks. -/
def runTicks (l : List TickInput) (s : Vec2 × ℚ) : Vec2 × ℚ :=
  l.foldl (fun s i => navTick i s.1 s.2) s

/-- The bounds invariant of the camera pose. -/
def inBounds (p : Vec2) : Prop :=
  minCameraX ≤ p.x ∧ p.x ≤ maxCameraX ∧ minCameraZ ≤ p.z ∧ p.z ≤ maxCameraZ

instance (p : Vec2) : Decidable (inBounds p) := by
  unfold inBounds; infer_instance

/-- The damping condition of one tick: the velocity is above the stop threshold
and the scroll step from the post-WASD pose stays strictly inside the bounds
(the `if` chain of main.js:695-702). -/
def scrollDampingApplies (i : TickInput) (p : Vec2) (v : ℚ) : Prop :=
  scrollStopThreshold < |v| ∧ strictlyInsideBounds (scrollPotential i (wasdMove i p) v)

instance (i : TickInput) (p : Vec2) (v : ℚ) : Decidable (scrollDampingApplies i p v) := by
  unfold scrollDampingApplies; infer_instance

/-- A quiet tick: no keys, no touch drag, zero frame delta, unit right vector. -/
def tickA : TickInput :=
  { delta := 0, forward := Vec2.mk 0 (-1), right := Vec2.mk 1 0,
    keyW := false, keyA := false, keyS := false, keyD := false, isTouching := false }

/-- A tick identical to `tickA` but with an active touch drag. -/
def tickTouch : TickInput :=
  { tickA with isTouching := true }

/-- A tick with a 10 ms frame delta and no keys, used at the clamp boundary. -/
def tickCex : TickInput :=
  { tickA with delta := 1/100 }

/-- The tick of the C8 scenario: `deltaTime = 0.1`, no keys, no touch. -/
def tickScenario : TickInput :=
  { tickA with delta := 1/10 }

/-! ## Pointer input listeners (main.js:246, 255-257, 276-279, 291-330) -/

/-- The mutable input state shared by the wheel and touch listeners:
`scrollVelocityX` (main.js:246), `isTouching` and `touchStartY`
(main.js:256-257). -/
structure InputSt where
  scrollVelocityX : ℚ
  isTouching : Bool
  touchStartY : ℚ
deriving DecidableEq

/-- The wheel listener (main.js:276-279): discarded unless the camera is
loaded and the scene ready, otherwise adds `deltaY * scrollSensitivity` to the
velocity. -/
def onWheelEvent (isCameraLoaded sceneReady : Bool) (deltaY : ℚ) (st : InputSt) : InputSt :=
  if !isCameraLoaded || !sceneReady then st
  else { st with scrollVelocityX := st.scrollVelocityX + deltaY * scrollSensitivity }

/-- The `onTouchStart` listener (main.js:291-297); `touches` is
`event.touches.length` and `clientY` the primary touch's vertical position. -/
def onTouchStartEvent (isCameraLoaded sceneReady : Bool) (touches : ℕ) (clientY : ℚ)
    (st : InputSt) : InputSt :=
  if !isCameraLoaded || !sceneReady then st
  else if touches = 1 then { st with isTouching := true, touchStartY := clientY }
  else st

/-- The `onTouchMove` listener (main.js:299-317): the early-return guard still
overwrites `isTouching` with `event.touches.length === 1`; past the guard it
subtracts `(clientY - touchStartY) * touchScrollSensitivity` from the velocity
and rebases `touchStartY`. -/
def onTouchMoveEvent (isCameraLoaded sceneReady : Bool) (touches : ℕ) (clientY : ℚ)
    (st : InputSt) : InputSt :=
  if !isCameraLoaded || !sceneReady || !st.isTouching || touches != 1 then
    { st with isTouching := touches == 1 }
  else
    { st with
        scrollVelocityX :=
          st.scrollVelocityX - (clientY - st.touchStartY) * touchScrollSensitivity,
        touchStartY := clientY }

/-! ## Hover arbitration (main.js:216-220, 602-648) -/

/-- Index into the fixed `videoPlanes` set
`['lanternBugfly_webm', 'lunaMoth_webm', 'tigerButterfly_webm']` (main.js:198). -/
abbrev VId := Fin 3

/-- The hover-facing state: `currentlyHoveredVideo` (main.js:220) plus the
playback flag and the fixed `muted` attribute of each video element
(main.js:36, 492). -/
structure HoverSt where
  current : Option VId
  playing : VId → Bool
  muted : VId → Bool

/-- The effect of `video.pause()` on the playback flags. -/
def videoPause (v : VId) (st : HoverSt) : HoverSt :=
  { st with playing := fun w => if w = v then false else st.playing w }

/-- The effect of a successful `video.play()` on the playback flags (a
rejected play promise is caught at main.js:632-636 and leaves the video
paused, which only strengthens the exclusivity invariant). -/
def videoPlay (v : VId) (st : HoverSt) : HoverSt :=
  { st with playing := fun w => if w = v then true else st.playing w }

/-- The `Control Video Playback` block of `animate` (main.js:624-648).
`resolved` is the surface resolved by the raycast for this tick (main.js:
602-622) and `audioContextResumed` the unlock flag (main.js:253).  Returns the
new state together with the play request issued this tick, if any. -/
def controlVideoPlayback (resolved : Option VId) (audioContextResumed : Bool)
    (st : HoverSt) : HoverSt × Option VId :=
  match resolved with
  | some v =>
    if st.current = some v then (st, none)
    else
      let st1 := match st.current with
        | some c => videoPause c st
        | none => st
      if audioContextResumed || st.muted v then
        ({ videoPlay v st1 with current := some v }, some v)
      else
        ({ st1 with current := some v }, none)
  | none =>
    match st.current with
    | some c => ({ videoPause c st with current := none }, none)
    | none => (st, none)

/-- A sequence of hover-arbitration ticks, each with its raycast result and
unlock flag. -/
def runHoverTicks (l : List (Option VId × Bool)) (st : HoverSt) : HoverSt :=
  l.foldl (fun st inp => (controlVideoPlayback inp.1 inp.2 st).1) st

/-- Every playing video is the currently hovered one. -/
def hoverInv (st : HoverSt) : Prop :=
  ∀ v, st.playing v = true → st.current = some v

instance (st : HoverSt) : Decidable (hoverInv st) := by
  unfold hoverInv; infer_instance

/-- At most one hover-driven video is playing. -/
def atMostOnePlaying (st : HoverSt) : Prop :=
  ∀ v w, st.playing v = true → st.playing w = true → v = w

/-- The hover state at scene-load time: nothing hovered, every video paused
(each video element is created paused, main.js:485 and 495). -/
def initialHoverSt (muted : VId → Bool) : HoverSt :=
  { current := none, playing := fun _ => false, muted := muted }

/-! ## Caption info panel (main.js:228, 651-667) -/

/-- The constant `infoPanelOffset = { x: 15, y: -15 }` (main.js:228). -/
def infoPanelOffsetX : ℚ := 15

/-- The y component of `infoPanelOffset` (main.js:228). -/
def infoPanelOffsetY : ℚ := -15

/-- The panel-positioning computation of the `Control Info Panel` block
(main.js:654-663): pointer position plus the fixed offset, sign-flipped on
right/bottom overflow, then clamped to be non-negative. -/
def infoPanelPosition (mouseX mouseY panelWidth panelHeight winW winH : ℚ) : ℚ × ℚ :=
  let px0 := mouseX + infoPanelOffsetX
  let py0 := mouseY + infoPanelOffsetY
  let px1 := if winW < px0 + panelWidth then mouseX - panelWidth - infoPanelOffsetX else px0
  let py1 := if winH < py0 + panelHeight then mouseY - panelHeight - infoPanelOffsetY else py0
  (max 0 px1, max 0 py1)

/-! ## Readiness orchestration (main.js:245-253, 333-392) -/

/-- The possible contents of the loading-progress element that matter to the
readiness claims. -/
inductive ProgressMsg
  | loadingText
  | completeText
  | cameraErrorText
deriving DecidableEq

/-- The `AudioContext.state` values handled by the unlock listener
(main.js:341-360). -/
inductive AudioCtxState
  | suspended
  | running
  | closed
deriving DecidableEq

/-- The flags and DOM-visible state touched by the unlock gesture listener
(main.js:334-362), `startExperience` (main.js:365-380) and
`playBackgroundSound` (main.js:383-392).  `playStarts` counts calls to
`backgroundSound.play()` and `animateStarts` counts starts of the `animate`
frame loop. -/
structure SysState where
  sceneReady : Bool
  isCameraLoaded : Bool
  overlayHidden : Bool
  progressMsg : ProgressMsg
  progressVisible : Bool
  buttonDisplayed : Bool
  buttonHiddenClass : Bool
  buttonErrorText : Bool
  listenerInit : Bool
  ctxState : AudioCtxState
  audioContextResumed : Bool
  soundLoaded : Bool
  soundIsPlaying : Bool
  playStarts : ℕ
  clockStarted : Bool
  animateStarts : ℕ
deriving DecidableEq

/-- `playBackgroundSound` (main.js:383-392): plays the ambient audio only when
it is loaded, the context resumed and it is not already playing. -/
def playBackgroundSound (s : SysState) : SysState :=
  if s.soundLoaded && s.audioContextResumed && !s.soundIsPlaying then
    { s with soundIsPlaying := true, playStarts := s.playStarts + 1 }
  else s

/-- `startExperience` (main.js:365-380): a no-op once `sceneReady`; otherwise
hides the overlay, marks the scene ready and, if the camera resolved, starts
the clock and the `animate` loop; if not, re-shows the overlay with the fatal
`Error: Camera Failed` message and withholds the unlock affordance. -/
def startExperience (s : SysState) : SysState :=
  if s.sceneReady then s
  else
    let s1 := { s with overlayHidden := true, sceneReady := true }
    if s1.isCameraLoaded then
      { s1 with clockStarted := true, animateStarts := s1.animateStarts + 1 }
    else
      { s1 with overlayHidden := false,
                progressMsg := ProgressMsg.cameraErrorText,
                progressVisible := true,
                buttonDisplayed := false }

/-- The unlock-gesture click listener (main.js:334-362).  `resumeOk` is the
outcome of the asynchronous `AudioContext.resume()` call; on success the
context ends up `running`.  On resume failure main.js still calls
`startExperience` (main.js:350); in every branch past the listener check the
button finally receives the `hidden` class. -/
def onUnlockGesture (resumeOk : Bool) (s : SysState) : SysState :=
  if !s.listenerInit then
    { s with buttonErrorText := true }
  else
    let s1 :=
      match s.ctxState with
      | AudioCtxState.suspended =>
        if resumeOk then
          startExperience
            (playBackgroundSound
              { s with ctxState := AudioCtxState.running, audioContextResumed := true })
        else
          startExperience { s with buttonErrorText := true }
      | AudioCtxState.running =>
        startExperience (playBackgroundSound { s with audioContextResumed := true })
      | AudioCtxState.closed => startExperience s
    { s1 with buttonHiddenClass := true }

/-- A concrete pre-unlock state: all assets loaded, camera resolved, context
suspended, nothing playing yet. -/
def sysReadyToUnlock : SysState :=
  { sceneReady := false, isCameraLoaded := true, overlayHidden := false,
    progressMsg := ProgressMsg.completeText, progressVisible := false,
    buttonDisplayed := true, buttonHiddenClass := false, buttonErrorText := false,
    listenerInit := true, ctxState := AudioCtxState.suspended,
    audioContextResumed := false, soundLoaded := true, soundIsPlaying := false,
    playStarts := 0, clockStarted := false, animateStarts := 0 }

/-- The same pre-unlock state but with the camera asset unresolved. -/
def sysCameraMissing : SysState :=
  { sysReadyToUnlock with isCameraLoaded := false }

/-! ## Media-texture adapters (main.js:31-132, 487-540, 735-773) -/

/-- The observable state of an HTMLVideoElement as used by the adapters: the
`src` attribute (released via `removeAttribute('src')`, main.js:126, 768) and
the playing flag.  Browser-API model: `play()` on an element without a source
rejects its promise — every call site catches that — and starts no playback;
`pause()` always succeeds; `load()` resets playback. -/
structure VideoElem where
  srcAttached : Bool
  isPlaying : Bool
deriving DecidableEq

/-- Browser-API model of `video.play()` (see `VideoElem`). -/
def VideoElem.play (v : VideoElem) : VideoElem :=
  if v.srcAttached then { v with isPlaying := true } else v

/-- Browser-API model of `video.pause()`. -/
def VideoElem.pause (v : VideoElem) : VideoElem :=
  { v with isPlaying := false }

/-- Browser-API model of `video.removeAttribute('src')`. -/
def VideoElem.removeSrc (v : VideoElem) : VideoElem :=
  { v with srcAttached := false }

/-- Browser-API model of `video.load()` (resets element state). -/
def VideoElem.load (v : VideoElem) : VideoElem :=
  { v with isPlaying := false }

/-- The object returned by `createCanvasVideoTexture` (main.js:114-131): the
canvas-sampling request-animation-frame handle, the video element and the
canvas texture. -/
structure CanvasTextureObj where
  animationFrameId : Option ℕ
  video : VideoElem
  textureDisposed : Bool
deriving DecidableEq

/-- The `dispose` closure of the canvas adapter (main.js:120-130): cancels the
sampling callback when one is pending (null afterwards in either case), pauses
the video, releases its source, resets it and disposes the canvas texture. -/
def CanvasTextureObj.dispose (o : CanvasTextureObj) : CanvasTextureObj :=
  { animationFrameId := none,
    video := ((o.video.pause).removeSrc).load,
    textureDisposed := true }

/-- `play()` reaching the canvas adapter's video element (main.js:630). -/
def CanvasTextureObj.play (o : CanvasTextureObj) : CanvasTextureObj :=
  { o with video := o.video.play }

/-- `pause()` reaching the canvas adapter's video element (main.js:627). -/
def CanvasTextureObj.pause (o : CanvasTextureObj) : CanvasTextureObj :=
  { o with video := o.video.pause }

/-- The direct variant (main.js:487-540): a video element decoding straight
into a `THREE.VideoTexture`; no sampling callback exists. -/
structure DirectVideoObj where
  video : VideoElem
  textureDisposed : Bool
deriving DecidableEq

/-- The disposal routine of the direct variant: the per-video release sequence
of the teardown handler (`pause`, `removeAttribute('src')`, `load()`,
main.js:766-770) together with the texture release (`material.map.dispose()`,
main.js:744-750). -/
def DirectVideoObj.dispose (o : DirectVideoObj) : DirectVideoObj :=
  { video := ((o.video.pause).removeSrc).load,
    textureDisposed := true }

/-- `play()` reaching the direct adapter's video element (main.js:630). -/
def DirectVideoObj.play (o : DirectVideoObj) : DirectVideoObj :=
  { o with video := o.video.play }

/-- `pause()` reaching the direct adapter's video element (main.js:627). -/
def DirectVideoObj.pause (o : DirectVideoObj) : DirectVideoObj :=
  { o with video := o.video.pause }

/-! ## Theorems -/

theorem clampAxis_mem (lo hi v : ℚ) (h : lo ≤ hi) :
    lo ≤ clampAxis lo hi v ∧ clampAxis lo hi v ≤ hi :=
  ⟨le_max_left lo _, max_le h (min_le_left hi v)⟩

theorem minCameraX_le_max : minCameraX ≤ maxCameraX := by
  norm_num [minCameraX, maxCameraX]

theorem minCameraZ_le_max : minCameraZ ≤ maxCameraZ := by
  norm_num [minCameraZ, maxCameraZ]

theorem inBounds_clampPose (q : Vec2) : inBounds (clampPose q) :=
  ⟨(clampAxis_mem _ _ _ minCameraX_le_max).1,
    (clampAxis_mem _ _ _ minCameraX_le_max).2,
    (clampAxis_mem _ _ _ minCameraZ_le_max).1,
    (clampAxis_mem _ _ _ minCameraZ_le_max).2⟩

theorem inBounds_wasdMove (i : TickInput) (p : Vec2) (h : inBounds p) :
    inBounds (wasdMove i p) := by
  unfold wasdMove
  split
  · exact inBounds_clampPose _
  · exact h

theorem inBounds_scrollMove (i : TickInput) (p : Vec2) (v : ℚ) (h : inBounds p) :
    inBounds (scrollMove i p v).1 := by
  unfold scrollMove
  split
  · split
    · rename_i hin
      exact ⟨le_of_lt hin.1, le_of_lt hin.2.1, le_of_lt hin.2.2.1, le_of_lt hin.2.2.2⟩
    · exact inBounds_clampPose _
  · exact h

theorem inBounds_navTick (i : TickInput) (p : Vec2) (v : ℚ) (h : inBounds p) :
    inBounds (navTick i p v).1 :=
  inBounds_scrollMove i (wasdMove i p) v (inBounds_wasdMove i p h)

/-- C1: for every sequence of navigation ticks (any WASD flags, scroll/touch
velocity, frame delta and camera basis), the camera pose stays inside the
rectangle `[minCameraX, maxCameraX] × [minCameraZ, maxCameraZ]` after every
tick, provided it was inside after the initial clamp. -/
theorem nav_bounds_invariant (l : List TickInput) (p : Vec2) (v : ℚ) (h : inBounds p) :
    inBounds (runTicks l (p, v)).1 := by
  induction l generalizing p v with
  | nil => exact h
  | cons i t ih =>
    exact ih (navTick i p v).1 (navTick i p v).2 (inBounds_navTick i p v h)

theorem scrollDamping_nonneg : (0 : ℚ) ≤ scrollDamping := by norm_num [scrollDamping]

theorem scrollDamping_le_one : scrollDamping ≤ 1 := by norm_num [scrollDamping]

theorem navTick_vel_damp (i : TickInput) (p : Vec2) (v : ℚ) (ht : i.isTouching = false)
    (h : scrollDampingApplies i p v) : (navTick i p v).2 = v * scrollDamping := by
  unfold navTick scrollMove
  rw [if_pos h.1, if_pos h.2]
  simp [ht]

theorem navTick_vel_touch (i : TickInput) (p : Vec2) (v : ℚ) (ht : i.isTouching = true)
    (h : scrollDampingApplies i p v) : (navTick i p v).2 = v := by
  unfold navTick scrollMove
  rw [if_pos h.1, if_pos h.2]
  simp [ht]

theorem navTick_vel_stop (i : TickInput) (p : Vec2) (v : ℚ)
    (h : |v| ≤ scrollStopThreshold) : (navTick i p v).2 = 0 := by
  unfold navTick scrollMove
  rw [if_neg (not_lt.mpr h)]

theorem navTick_vel_boundary (i : TickInput) (p : Vec2) (v : ℚ)
    (h1 : scrollStopThreshold < |v|)
    (h2 : ¬ strictlyInsideBounds (scrollPotential i (wasdMove i p) v)) :
    (navTick i p v).2 = 0 := by
  unfold navTick scrollMove
  rw [if_pos h1, if_neg h2]

theorem navTick_vel_zero (i : TickInput) (p : Vec2) (v : ℚ)
    (h : ¬ scrollDampingApplies i p v) : (navTick i p v).2 = 0 := by
  by_cases h1 : scrollStopThreshold < |v|
  · exact navTick_vel_boundary i p v h1 (fun hs => h ⟨h1, hs⟩)
  · exact navTick_vel_stop i p v (not_lt.mp h1)

theorem navTick_vel_le (i : TickInput) (p : Vec2) (v : ℚ) (ht : i.isTouching = false) :
    |(navTick i p v).2| ≤ |v| * scrollDamping := by
  unfold navTick scrollMove
  split
  · split
    · simp only [ht, Bool.false_eq_true, if_false]
      rw [abs_mul]
      have : |scrollDamping| = scrollDamping := by norm_num [scrollDamping]
      rw [this]
    · simpa using mul_nonneg (abs_nonneg v) scrollDamping_nonneg
  · simpa using mul_nonneg (abs_nonneg v) scrollDamping_nonneg

theorem runTicks_vel_zero (l : List TickInput) (i : TickInput) (p : Vec2) (v : ℚ)
    (hτ : ∀ j ∈ i :: l, j.isTouching = false)
    (h : |v| * scrollDamping ^ l.length ≤ scrollStopThreshold) :
    (runTicks (i :: l) (p, v)).2 = 0 := by
  induction l generalizing i p v with
  | nil =>
      have h0 : |v| ≤ scrollStopThreshold := by simpa using h
      exact navTick_vel_stop i p v h0
  | cons j t ih =>
      have hti : i.isTouching = false := hτ i (by simp)
      have hvle : |(navTick i p v).2| ≤ |v| * scrollDamping := navTick_vel_le i p v hti
      have hτ2 : ∀ k ∈ j :: t, k.isTouching = false :=
        fun k hk => hτ k (List.mem_cons_of_mem i hk)
      have h2 : |(navTick i p v).2| * scrollDamping ^ t.length ≤ scrollStopThreshold := by
        calc |(navTick i p v).2| * scrollDamping ^ t.length
            ≤ (|v| * scrollDamping) * scrollDamping ^ t.length :=
              mul_le_mul_of_nonneg_right hvle (pow_nonneg scrollDamping_nonneg _)
          _ = |v| * scrollDamping ^ (t.length + 1) := by ring
          _ ≤ scrollStopThreshold := by simpa [List.length_cons] using h
      exact ih j (navTick i p v).1 (navTick i p v).2 hτ2 h2

/-- C5 (amended): on a tick with no active touch drag the velocity is
multiplied by the damping factor when it is above the stop threshold and the
velocity step stays strictly in bounds, and is set to exactly 0 otherwise
(below the threshold, or when the step would cross a bound — in which case the
code zeroes it instead of damping it); during an in-bounds touch-drag tick the
velocity is left unchanged.  Consequently, with no further wheel/touch input
and no active touch drag, the velocity reaches exactly 0 within a bounded
number of ticks (at most `3k + 43` ticks when `|v| ≤ 2 ^ k`). -/
theorem scroll_damping_rule_amended
    (i₁ : TickInput) (p₁ : Vec2) (v₁ : ℚ)
    (i₂ : TickInput) (p₂ : Vec2) (v₂ : ℚ)
    (i₃ : TickInput) (p₃ : Vec2) (v₃ : ℚ)
    (k : ℕ) (l : List TickInput) (p : Vec2) (v : ℚ)
    (h₁t : i₁.isTouching = false) (h₁ : scrollDampingApplies i₁ p₁ v₁)
    (h₂ : ¬ scrollDampingApplies i₂ p₂ v₂)
    (h₃t : i₃.isTouching = true) (h₃ : scrollDampingApplies i₃ p₃ v₃)
    (hτ : ∀ j ∈ l, j.isTouching = false) (hv : |v| ≤ (2 : ℚ) ^ k)
    (hl : 3 * k + 43 ≤ l.length) :
    (navTick i₁ p₁ v₁).2 = v₁ * scrollDamping ∧
    (navTick i₂ p₂ v₂).2 = 0 ∧
    (navTick i₃ p₃ v₃).2 = v₃ ∧
    (runTicks l (p, v)).2 = 0 := by
  refine ⟨navTick_vel_damp i₁ p₁ v₁ h₁t h₁, navTick_vel_zero i₂ p₂ v₂ h₂,
    navTick_vel_touch i₃ p₃ v₃ h₃t h₃, ?_⟩
  obtain ⟨i, t, rfl⟩ : ∃ i t, l = i :: t := by
    cases l with
    | nil => simp at hl
    | cons i t => exact ⟨i, t, rfl⟩
  apply runTicks_vel_zero t i p v hτ
  have hlen : 3 * k + 42 ≤ t.length := by
    have := hl
    simp only [List.length_cons] at this
    omega
  calc |v| * scrollDamping ^ t.length
      ≤ (2 : ℚ) ^ k * scrollDamping ^ t.length :=
        mul_le_mul_of_nonneg_right hv (pow_nonneg scrollDamping_nonneg _)
    _ ≤ (2 : ℚ) ^ k * scrollDamping ^ (3 * k + 42) :=
        mul_le_mul_of_nonneg_left
          (pow_le_pow_of_le_one scrollDamping_nonneg scrollDamping_le_one hlen)
          (by positivity)
    _ = (2 : ℚ) ^ k * (scrollDamping ^ 3) ^ (k + 14) := by
        have hexp : 3 * (k + 14) = 3 * k + 42 := by ring
        rw [← pow_mul, hexp]
    _ ≤ (2 : ℚ) ^ k * ((1 / 2 : ℚ)) ^ (k + 14) :=
        mul_le_mul_of_nonneg_left
          (pow_le_pow_left₀ (pow_nonneg scrollDamping_nonneg 3)
            (by norm_num [scrollDamping]) _)
          (by positivity)
    _ = (1 / 2 : ℚ) ^ 14 := by
        rw [pow_add, ← mul_assoc, ← mul_pow]
        norm_num
    _ ≤ scrollStopThreshold := by norm_num [scrollStopThreshold]

/-- Witness for C5 (amended): a damped in-bounds tick, a below-threshold tick,
an in-bounds touch-drag tick, and 43 quiet ticks from velocity 1. -/
theorem scroll_damping_rule_amended_witness :
    (navTick tickA (Vec2.mk 0 0) 1).2 = 1 * scrollDamping ∧
    (navTick tickA (Vec2.mk 0 0) 0).2 = 0 ∧
    (navTick tickTouch (Vec2.mk 0 0) 1).2 = 1 ∧
    (runTicks (List.replicate 43 tickA) (Vec2.mk 0 0, 1)).2 = 0 :=
  scroll_damping_rule_amended tickA (Vec2.mk 0 0) 1 tickA (Vec2.mk 0 0) 0
    tickTouch (Vec2.mk 0 0) 1 0 (List.replicate 43 tickA) (Vec2.mk 0 0) 1
    rfl
    (by constructor
        · norm_num [scrollStopThreshold]
        · norm_num [strictlyInsideBounds, scrollPotential, wasdMove, tickA,
            minCameraX, maxCameraX, minCameraZ, maxCameraZ])
    (by intro h
        exact absurd h.1 (by norm_num [scrollStopThreshold]))
    rfl
    (by constructor
        · norm_num [scrollStopThreshold]
        · norm_num [strictlyInsideBounds, scrollPotential, wasdMove, tickTouch, tickA,
            minCameraX, maxCameraX, minCameraZ, maxCameraZ])
    (by intro j hj
        rw [List.eq_of_mem_replicate hj]
        rfl)
    (by norm_num)
    (by norm_num)

/-- C5 counterexample: at pose `x = maxCameraX` with velocity 1 — above the
stop threshold — the tick sets the velocity to exactly 0 instead of
multiplying it by the damping factor, refuting the claim that every tick with
`|velocity| > epsilon` multiplies it by the damping factor. -/
theorem scroll_damping_claim_counterexample :
    scrollStopThreshold < |(1 : ℚ)| ∧
    (navTick tickCex (Vec2.mk 50 0) 1).2 = 0 ∧
    (1 : ℚ) * scrollDamping ≠ 0 := by
  refine ⟨by norm_num [scrollStopThreshold], ?_, by norm_num [scrollDamping]⟩
  apply navTick_vel_boundary
  · norm_num [scrollStopThreshold]
  · norm_num [strictlyInsideBounds, scrollPotential, wasdMove, tickCex, tickA,
      minCameraX, maxCameraX, minCameraZ, maxCameraZ]

/-- Witness for C1: a concrete in-bounds pose and tick list. -/
theorem nav_bounds_invariant_witness :
    inBounds (Vec2.mk 0 0) ∧ inBounds (runTicks [tickCex] (Vec2.mk 0 0, 1)).1 :=
  ⟨by norm_num [inBounds, minCameraX, maxCameraX, minCameraZ, maxCameraZ],
    nav_bounds_invariant [tickCex] (Vec2.mk 0 0) 1
      (by norm_num [inBounds, minCameraX, maxCameraX, minCameraZ, maxCameraZ])⟩

/-- C8: a wheel event with `deltaY = 100` at sensitivity 0.01 raises the
velocity from 0 to exactly 1; one navigation tick with `deltaTime = 0.1` and
damping factor 0.75 (in bounds, no touch drag) then moves the pose by 0.1
along the right axis and leaves the velocity at exactly 0.75 post-tick. -/
theorem wheel_scroll_scenario :
    (onWheelEvent true true 100 (InputSt.mk 0 false 0)).scrollVelocityX = 1 ∧
    scrollDamping = 3 / 4 ∧
    navTick tickScenario (Vec2.mk 0 0) 1 = (Vec2.mk (1 / 10) 0, 3 / 4) := by
  refine ⟨?_, by norm_num [scrollDamping], ?_⟩
  · norm_num [onWheelEvent, scrollSensitivity]
  · norm_num [navTick, scrollMove, scrollPotential, wasdMove, strictlyInsideBounds,
      scrollStopThreshold, scrollDamping, tickScenario, tickA,
      minCameraX, maxCameraX, minCameraZ, maxCameraZ, Prod.ext_iff, Vec2.mk.injEq]

/-- C10 counterexample: a touch-move event arriving with one active touch
before the camera is loaded and the scene ready sets `isTouching` to true even
though it was false — pre-ready touch input does mutate the touch state. -/
theorem preready_touchmove_counterexample :
    (InputSt.mk 0 false 0).isTouching = false ∧
    (onTouchMoveEvent false false 1 100 (InputSt.mk 0 false 0)).isTouching = true :=
  ⟨rfl, rfl⟩

/-- C10 (amended): every wheel and touch-start event arriving before both
`isCameraLoaded` and `sceneReady` hold leaves the input state completely
unchanged; a pre-ready touch-move leaves `scrollVelocityX` and `touchStartY`
unchanged but still overwrites `isTouching` with whether exactly one touch is
active (the early-return branch of `onTouchMove`). -/
theorem preready_input_amended (cam ready : Bool) (d : ℚ) (n m : ℕ) (y₁ y₂ : ℚ)
    (st : InputSt) (h : cam = false ∨ ready = false) :
    onWheelEvent cam ready d st = st ∧
    onTouchStartEvent cam ready n y₁ st = st ∧
    (onTouchMoveEvent cam ready m y₂ st).scrollVelocityX = st.scrollVelocityX ∧
    (onTouchMoveEvent cam ready m y₂ st).touchStartY = st.touchStartY ∧
    (onTouchMoveEvent cam ready m y₂ st).isTouching = (m == 1) := by
  rcases h with h | h <;> subst h <;>
    simp [onWheelEvent, onTouchStartEvent, onTouchMoveEvent]

/-- Witness for C10 (amended): concrete pre-ready events. -/
theorem preready_input_amended_witness :
    onWheelEvent false true 100 (InputSt.mk 0 false 0) = InputSt.mk 0 false 0 ∧
    onTouchStartEvent false true 1 50 (InputSt.mk 0 false 0) = InputSt.mk 0 false 0 ∧
    (onTouchMoveEvent false true 2 50 (InputSt.mk 0 false 0)).scrollVelocityX = 0 ∧
    (onTouchMoveEvent false true 2 50 (InputSt.mk 0 false 0)).touchStartY = 0 ∧
    (onTouchMoveEvent false true 2 50 (InputSt.mk 0 false 0)).isTouching = (2 == 1) :=
  preready_input_amended false true 100 1 2 50 50 (InputSt.mk 0 false 0) (Or.inl rfl)

theorem hoverInv_tick (resolved : Option VId) (a : Bool) (st : HoverSt)
    (h : hoverInv st) : hoverInv (controlVideoPlayback resolved a st).1 := by
  cases resolved with
  | none =>
    cases hcur : st.current with
    | none =>
      simp only [controlVideoPlayback, hcur]
      exact h
    | some c =>
      simp only [controlVideoPlayback, hcur]
      intro w hw
      simp only [videoPause] at hw
      by_cases hwc : w = c
      · simp [hwc] at hw
      · simp only [if_neg hwc] at hw
        have := h w hw
        rw [hcur] at this
        exact absurd (Option.some.inj this).symm hwc
  | some v =>
    by_cases hc : st.current = some v
    · simp only [controlVideoPlayback, if_pos hc]
      exact h
    · simp only [controlVideoPlayback]
      rw [if_neg hc]
      cases hcur : st.current with
      | none =>
        simp only [hcur]
        by_cases hg : (a || st.muted v) = true
        · rw [if_pos hg]
          intro w hw
          simp only [videoPlay] at hw ⊢
          by_cases hwv : w = v
          · simp [hwv]
          · simp only [if_neg hwv] at hw
            exact absurd (h w hw) (by simp [hcur])
        · rw [if_neg hg]
          intro w hw
          exact absurd (h w hw) (by simp [hcur])
      | some c =>
        simp only [hcur]
        by_cases hg : (a || st.muted v) = true
        · rw [if_pos hg]
          intro w hw
          simp only [videoPlay, videoPause] at hw ⊢
          by_cases hwv : w = v
          · simp [hwv]
          · simp only [if_neg hwv] at hw
            by_cases hwc : w = c
            · simp [hwc] at hw
            · simp only [if_neg hwc] at hw
              have := h w hw
              rw [hcur] at this
              exact absurd (Option.some.inj this).symm hwc
        · rw [if_neg hg]
          intro w hw
          simp only [videoPause] at hw
          by_cases hwc : w = c
          · simp [hwc] at hw
          · simp only [if_neg hwc] at hw
            have := h w hw
            rw [hcur] at this
            exact absurd (Option.some.inj this).symm hwc

theorem hoverInv_runHoverTicks (l : List (Option VId × Bool)) (st : HoverSt)
    (h : hoverInv st) : hoverInv (runHoverTicks l st) := by
  induction l generalizing st with
  | nil => exact h
  | cons inp t ih => exact ih _ (hoverInv_tick inp.1 inp.2 st h)

/-- C4: after every hover-arbitration tick of any sequence, at most one
hover-driven video is playing — the previously hovered video is paused before
(or instead of) starting the newly resolved one, so two are never playing
simultaneously — provided every playing video was the hovered one at the
start (as at scene-load time, when every video is paused). -/
theorem hover_exclusivity (l : List (Option VId × Bool)) (st : HoverSt)
    (h : hoverInv st) :
    hoverInv (runHoverTicks l st) ∧ atMostOnePlaying (runHoverTicks l st) := by
  have hinv := hoverInv_runHoverTicks l st h
  refine ⟨hinv, fun v w hv hw => ?_⟩
  have h1 := hinv v hv
  have h2 := hinv w hw
  rw [h1] at h2
  exact Option.some.inj h2

/-- Witness for C4: the initial all-paused state and a concrete tick list. -/
theorem hover_exclusivity_witness :
    hoverInv (initialHoverSt (fun _ => true)) ∧
    (hoverInv (runHoverTicks [(some 0, true), (some 1, false), (none, true)]
        (initialHoverSt (fun _ => true))) ∧
      atMostOnePlaying (runHoverTicks [(some 0, true), (some 1, false), (none, true)]
        (initialHoverSt (fun _ => true)))) :=
  ⟨fun v hv => by simp [initialHoverSt] at hv,
    hover_exclusivity [(some 0, true), (some 1, false), (none, true)]
      (initialHoverSt (fun _ => true))
      (fun v hv => by simp [initialHoverSt] at hv)⟩

/-- C6: when the raycast resolves a surface other than the current hover,
the play request is gated: with the gate open (audio unlocked or source muted)
the adapter is asked to play and the hover reference moves to the new
surface; with the gate closed no play request is issued and the video stays
paused, yet the hover reference still moves to the new surface; and when the
resolved surface equals the current hover nothing happens at all, so the play
request is not retried while the hover is unchanged. -/
theorem hover_play_gate
    (st₁ : HoverSt) (v₁ : VId) (a₁ : Bool)
    (st₂ : HoverSt) (v₂ : VId) (a₂ : Bool)
    (st₃ : HoverSt) (v₃ : VId) (a₃ : Bool)
    (h₁ : st₁.current ≠ some v₁) (hg₁ : (a₁ || st₁.muted v₁) = true)
    (hinv₂ : hoverInv st₂) (h₂ : st₂.current ≠ some v₂)
    (hg₂ : (a₂ || st₂.muted v₂) = false)
    (h₃ : st₃.current = some v₃) :
    (controlVideoPlayback (some v₁) a₁ st₁).2 = some v₁ ∧
    (controlVideoPlayback (some v₁) a₁ st₁).1.current = some v₁ ∧
    (controlVideoPlayback (some v₂) a₂ st₂).2 = none ∧
    (controlVideoPlayback (some v₂) a₂ st₂).1.current = some v₂ ∧
    (controlVideoPlayback (some v₂) a₂ st₂).1.playing v₂ = false ∧
    controlVideoPlayback (some v₃) a₃ st₃ = (st₃, none) := by
  refine ⟨?_, ?_, ?_, ?_, ?_, ?_⟩
  · unfold controlVideoPlayback
    simp only [if_neg h₁, hg₁]
    cases st₁.current <;> simp
  · unfold controlVideoPlayback
    simp only [if_neg h₁, hg₁]
    cases st₁.current <;> simp
  · unfold controlVideoPlayback
    simp only [if_neg h₂, hg₂]
    cases st₂.current <;> simp
  · unfold controlVideoPlayback
    simp only [if_neg h₂, hg₂]
    cases st₂.current <;> simp
  · have hp : st₂.playing v₂ = false := by
      cases hp : st₂.playing v₂ with
      | false => rfl
      | true => exact absurd (hinv₂ v₂ hp) h₂
    unfold controlVideoPlayback
    simp only [if_neg h₂, hg₂]
    cases hcur : st₂.current with
    | none => simpa using hp
    | some c =>
      have hcv : v₂ ≠ c := by
        intro he
        rw [he] at h₂
        exact h₂ hcur
      simp [videoPause, hcv, hp]
  · unfold controlVideoPlayback
    simp [h₃]

/-- Witness for C6: concrete states exercising the open gate, the closed gate
and the unchanged-hover cases. -/
theorem hover_play_gate_witness :
    (controlVideoPlayback (some 0) true (initialHoverSt (fun _ => true))).2 = some 0 ∧
    (controlVideoPlayback (some 0) true (initialHoverSt (fun _ => true))).1.current = some 0 ∧
    (controlVideoPlayback (some 1) false (initialHoverSt (fun _ => false))).2 = none ∧
    (controlVideoPlayback (some 1) false (initialHoverSt (fun _ => false))).1.current = some 1 ∧
    (controlVideoPlayback (some 1) false (initialHoverSt (fun _ => false))).1.playing 1 = false ∧
    controlVideoPlayback (some 2) false
        { initialHoverSt (fun _ => false) with current := some 2 } =
      ({ initialHoverSt (fun _ => false) with current := some 2 }, none) :=
  hover_play_gate (initialHoverSt (fun _ => true)) 0 true
    (initialHoverSt (fun _ => false)) 1 false
    ({ initialHoverSt (fun _ => false) with current := some 2 }) 2 false
    (by simp [initialHoverSt]) (by simp)
    (fun v hv => by simp [initialHoverSt] at hv)
    (by simp [initialHoverSt]) (by simp [initialHoverSt])
    (by simp [initialHoverSt])

theorem max_zero_add_le (e c B : ℚ) (h0 : 0 ≤ B - c) (he : e ≤ B - c) :
    max 0 e + c ≤ B := by
  have := add_le_add_right (max_le h0 he) c
  linarith

/-- C9 counterexample: with the pointer at the bottom edge of a 800×600
viewport and a 100×50 panel, the code flips the y offset and places the panel
top at 565, so the panel bottom reaches 615 — past the bottom viewport edge —
refuting the claim that the adjusted panel never extends past any viewport
edge. -/
theorem info_panel_claim_counterexample :
    (50 : ℚ) ≤ 600 ∧ (0 : ℚ) ≤ 600 ∧
    (infoPanelPosition 400 600 100 50 800 600).2 = 565 ∧
    (565 : ℚ) + 50 > 600 := by
  refine ⟨by norm_num, by norm_num, ?_, by norm_num⟩
  norm_num [infoPanelPosition, infoPanelOffsetX, infoPanelOffsetY]

/-- C9 (amended): whenever a surface is active, the caption panel position is
the pointer position offset by `(15, -15)`, with the offset sign flipped on
right/bottom overflow and the result clamped to be non-negative; the panel
then stays entirely inside the viewport provided the pointer is inside the
viewport at least 15 px above its bottom edge and the panel is no larger than
the viewport — with the pointer in the bottom 15 px strip the panel can still
extend past the bottom edge (see the counterexample). -/
theorem info_panel_amended (mX mY w h W H : ℚ)
    (hmx : mX ≤ W) (hw : w ≤ W) (hh : h ≤ H) (hmy : mY + 15 ≤ H) :
    0 ≤ (infoPanelPosition mX mY w h W H).1 ∧
    0 ≤ (infoPanelPosition mX mY w h W H).2 ∧
    (infoPanelPosition mX mY w h W H).1 + w ≤ W ∧
    (infoPanelPosition mX mY w h W H).2 + h ≤ H := by
  simp only [infoPanelPosition, infoPanelOffsetX, infoPanelOffsetY]
  split_ifs with h1 h2 <;>
    exact ⟨le_max_left 0 _, le_max_left 0 _,
      max_zero_add_le _ _ _ (by linarith) (by linarith),
      max_zero_add_le _ _ _ (by linarith) (by linarith)⟩

/-- Witness for C9 (amended): pointer at (400, 300) in an 800×600 viewport
with a 100×50 panel. -/
theorem info_panel_amended_witness :
    ((400 : ℚ) ≤ 800 ∧ (100 : ℚ) ≤ 800 ∧ (50 : ℚ) ≤ 600 ∧ (300 : ℚ) + 15 ≤ 600) ∧
    (0 ≤ (infoPanelPosition 400 300 100 50 800 600).1 ∧
      0 ≤ (infoPanelPosition 400 300 100 50 800 600).2 ∧
      (infoPanelPosition 400 300 100 50 800 600).1 + 100 ≤ 800 ∧
      (infoPanelPosition 400 300 100 50 800 600).2 + 50 ≤ 600) :=
  ⟨by norm_num,
    info_panel_amended 400 300 100 50 800 600
      (by norm_num) (by norm_num) (by norm_num) (by norm_num)⟩

/-- C7: for both media-texture adapter variants the disposal routine is
idempotent (a second call changes nothing and, being a total function on the
modelled element state, raises no error); it cancels any pending canvas
sampling callback, releases the video source and marks the texture disposed;
and after disposal `play()` and `pause()` leave the adapter completely
unchanged — no-ops, not errors. -/
theorem adapter_dispose_contract (o : CanvasTextureObj) (d : DirectVideoObj) :
    o.dispose.dispose = o.dispose ∧
    o.dispose.animationFrameId = none ∧
    o.dispose.video.srcAttached = false ∧
    o.dispose.video.isPlaying = false ∧
    o.dispose.textureDisposed = true ∧
    o.dispose.play = o.dispose ∧
    o.dispose.pause = o.dispose ∧
    d.dispose.dispose = d.dispose ∧
    d.dispose.video.srcAttached = false ∧
    d.dispose.video.isPlaying = false ∧
    d.dispose.textureDisposed = true ∧
    d.dispose.play = d.dispose ∧
    d.dispose.pause = d.dispose :=
  ⟨rfl, rfl, rfl, rfl, rfl, rfl, rfl, rfl, rfl, rfl, rfl, rfl, rfl⟩

theorem startExperience_of_ready (s : SysState) (h : s.sceneReady = true) :
    startExperience s = s := by
  unfold startExperience
  rw [if_pos h]

theorem playBackgroundSound_sceneReady (s : SysState) :
    (playBackgroundSound s).sceneReady = s.sceneReady := by
  unfold playBackgroundSound
  split <;> rfl

theorem playBackgroundSound_animateStarts (s : SysState) :
    (playBackgroundSound s).animateStarts = s.animateStarts := by
  unfold playBackgroundSound
  split <;> rfl

theorem onUnlockGesture_animateStarts_of_ready (r : Bool) (s : SysState)
    (h : s.sceneReady = true) :
    (onUnlockGesture r s).animateStarts = s.animateStarts := by
  unfold onUnlockGesture
  split
  · rfl
  · cases hctx : s.ctxState with
    | suspended =>
      cases r with
      | true =>
        simp only [hctx, if_true]
        rw [startExperience_of_ready _
          (by rw [playBackgroundSound_sceneReady]; exact h)]
        exact playBackgroundSound_animateStarts _
      | false =>
        simp only [hctx]
        rw [if_neg (by simp)]
        have hx := startExperience_of_ready
          { s with buttonErrorText := true, ctxState := AudioCtxState.suspended } h
        rw [hx]
    | running =>
      simp only [hctx]
      rw [startExperience_of_ready _
        (by rw [playBackgroundSound_sceneReady]; exact h)]
      exact playBackgroundSound_animateStarts _
    | closed =>
      simp only [hctx]
      rw [startExperience_of_ready _ h]

theorem startExperience_animateStarts_of_noCamera (t : SysState)
    (htc : t.isCameraLoaded = false) :
    (startExperience t).animateStarts = t.animateStarts := by
  unfold startExperience
  split
  · rfl
  · rw [if_neg (by simp [htc])]

/-- C2: if the camera asset has not resolved when the unlock gesture fires,
`startExperience` refuses to reach Ready: the `animate` loop is not started
(neither is the clock), the fatal `Error: Camera Failed` message replaces the
progress text, the overlay is re-shown and the unlock affordance withheld; the
resulting state is terminal (a further `startExperience` is a no-op and a
further unlock gesture still starts no frame loop); and in general
`startExperience` never starts the frame loop when the camera is missing. -/
theorem camera_missing_refuses_ready (s t : SysState) (r : Bool)
    (hc : s.isCameraLoaded = false) (hs : s.sceneReady = false)
    (ha : s.animateStarts = 0) (htc : t.isCameraLoaded = false) :
    (startExperience s).animateStarts = 0 ∧
    (startExperience s).clockStarted = s.clockStarted ∧
    (startExperience s).progressMsg = ProgressMsg.cameraErrorText ∧
    (startExperience s).progressVisible = true ∧
    (startExperience s).overlayHidden = false ∧
    (startExperience s).buttonDisplayed = false ∧
    (startExperience s).sceneReady = true ∧
    startExperience (startExperience s) = startExperience s ∧
    (onUnlockGesture r (startExperience s)).animateStarts = 0 ∧
    (startExperience t).animateStarts = t.animateStarts := by
  have hs1 : startExperience s =
      { s with overlayHidden := false, sceneReady := true,
               progressMsg := ProgressMsg.cameraErrorText,
               progressVisible := true, buttonDisplayed := false } := by
    unfold startExperience
    rw [if_neg (by simp [hs]), if_neg (by simp [hc])]
  refine ⟨?_, ?_, ?_, ?_, ?_, ?_, ?_, ?_, ?_, ?_⟩
  · rw [hs1]; exact ha
  · rw [hs1]
  · rw [hs1]
  · rw [hs1]
  · rw [hs1]
  · rw [hs1]
  · rw [hs1]
  · rw [hs1]; exact startExperience_of_ready _ rfl
  · rw [onUnlockGesture_animateStarts_of_ready r _ (by rw [hs1]), hs1]
    exact ha
  · exact startExperience_animateStarts_of_noCamera t htc

/-- Witness for C2: the concrete pre-unlock state with the camera missing. -/
theorem camera_missing_refuses_ready_witness :
    (startExperience sysCameraMissing).animateStarts = 0 ∧
    (startExperience sysCameraMissing).clockStarted = sysCameraMissing.clockStarted ∧
    (startExperience sysCameraMissing).progressMsg = ProgressMsg.cameraErrorText ∧
    (startExperience sysCameraMissing).progressVisible = true ∧
    (startExperience sysCameraMissing).overlayHidden = false ∧
    (startExperience sysCameraMissing).buttonDisplayed = false ∧
    (startExperience sysCameraMissing).sceneReady = true ∧
    startExperience (startExperience sysCameraMissing) = startExperience sysCameraMissing ∧
    (onUnlockGesture true (startExperience sysCameraMissing)).animateStarts = 0 ∧
    (startExperience sysCameraMissing).animateStarts = sysCameraMissing.animateStarts :=
  camera_missing_refuses_ready sysCameraMissing sysCameraMissing true
    rfl rfl rfl rfl

/-- C3: firing the unlock gesture twice — starting from any pre-unlock state
with the listener initialised and the camera loaded, in any audio-context
state (`suspended` with a succeeding or failing resume, `running`, or another
state) — yields exactly one transition to Ready: the scene becomes ready, the
`animate` frame loop is started exactly once, and the ambient background
audio is started at most once. -/
theorem unlock_ready_idempotent (s : SysState) (r₁ r₂ : Bool)
    (hl : s.listenerInit = true) (hc : s.isCameraLoaded = true) (hs : s.sceneReady = false)
    (ha : s.animateStarts = 0) (hp : s.playStarts = 0) (hsp : s.soundIsPlaying = false) :
    (onUnlockGesture r₂ (onUnlockGesture r₁ s)).sceneReady = true ∧
    (onUnlockGesture r₂ (onUnlockGesture r₁ s)).animateStarts = 1 ∧
    (onUnlockGesture r₂ (onUnlockGesture r₁ s)).playStarts ≤ 1 := by
  cases hctx : s.ctxState <;> cases r₁ <;> cases r₂ <;>
    cases hsl : s.soundLoaded <;> cases hacr : s.audioContextResumed <;>
    simp [onUnlockGesture, startExperience, playBackgroundSound,
      hl, hc, hs, ha, hp, hsp, hctx, hsl, hacr]

/-- Witness for C3: the concrete pre-unlock state, suspended context, both
resumes succeeding. -/
theorem unlock_ready_idempotent_witness :
    (onUnlockGesture true (onUnlockGesture true sysReadyToUnlock)).sceneReady = true ∧
    (onUnlockGesture true (onUnlockGesture true sysReadyToUnlock)).animateStarts = 1 ∧
    (onUnlockGesture true (onUnlockGesture true sysReadyToUnlock)).playStarts ≤ 1 :=
  unlock_ready_idempotent sysReadyToUnlock true true rfl rfl rfl rfl rfl rfl
